import Mathlib

/-!
Shallow embedding of the vpa-recommendations repository (Go).

Two batch jobs are modelled:
* `manage-vpas/manage-vpas.go` — provisions a VPA per Deployment /
  StatefulSet / DaemonSet workload, resolving the controlling owner first
  and skipping targets that already have a VPA.
* `get-recommendations/get-recommendations.go` — harvests the uncapped
  CPU/memory recommendations of every VPA into report rows, computing the
  drift against the current container requests and an HPA-overlap flag.

Pure functions of the Go source become Lean functions; cluster reads are
passed in as explicit data (per-namespace snapshots); fallible paths
return `Except`; the `int64` quantities become `Int` with Go's
truncating division modelled by `Int.tdiv`.
-/

namespace VPARecommendations

/-- ASCII model of Go `strings.ToLower` (per-character lowering). -/
def strToLower (s : String) : String := ⟨s.data.map Char.toLower⟩

/-! ### manage-vpas: data model -/

/-- One entry of `metav1.ObjectMeta.OwnerReferences`. -/
structure OwnerReference where
  apiVersion : String
  kind : String
  name : String
  controller : Bool
deriving DecidableEq

/-- The `metav1.ObjectMeta` type, restricted to the fields the scripts read. -/
structure ObjectMeta where
  name : String
  ownerReferences : List OwnerReference
deriving DecidableEq

/-- The `resource` struct of manage-vpas.go. -/
structure Resource where
  apiGroup : String
  resourceType : String
  resourceName : String
deriving DecidableEq

/-- The `autoscaling.CrossVersionObjectReference` type. -/
structure CrossVersionObjectReference where
  apiVersion : String
  kind : String
  name : String
deriving DecidableEq

/-- Projection of a `VerticalPodAutoscaler` object: name, labels, the
target reference of its spec and the update mode of its update policy. -/
structure VPA where
  name : String
  labels : List (String × String)
  targetRef : CrossVersionObjectReference
  updateMode : String
deriving DecidableEq

/-- The constant `vpaSuffix = "8dn39"` of manage-vpas.go. -/
def vpaSuffix : String := "8dn39"

/-! ### manage-vpas: owner resolution -/

/-- The loop body of `checkOwnedBy`: scan the owner references and return
the first entry whose `Controller` flag is set. -/
def findController : List OwnerReference → Option OwnerReference
  | [] => none
  | ref :: rest => if ref.controller then some ref else findController rest

/-- Function `checkOwnedBy` of manage-vpas.go: empty owner list means not owned;
otherwise the first controlling entry supplies the parent resource. -/
def checkOwnedBy (m : ObjectMeta) : Option Resource :=
  if m.ownerReferences = [] then none
  else
    match findController m.ownerReferences with
    | some ref =>
        some { apiGroup := ref.apiVersion, resourceType := ref.kind, resourceName := ref.name }
    | none => none

/-- The per-workload body of the three loops of `aggregateResourceNames`:
an owned workload contributes its parent resource, an unowned one
contributes itself with apiGroup `apps/v1` and its own kind. -/
def resolveWorkload (kindStr : String) (m : ObjectMeta) : Resource :=
  match checkOwnedBy m with
  | some r => r
  | none => { apiGroup := "apps/v1", resourceType := kindStr, resourceName := m.name }

/-- Function `aggregateResourceNames` of manage-vpas.go: deployments, then
statefulsets, then daemonsets, each resolved through `checkOwnedBy`. -/
def aggregateResourceNames (deployments statefulsets daemonsets : List ObjectMeta) : List Resource :=
  (deployments.map fun d => resolveWorkload "Deployment" d) ++
  (statefulsets.map fun s => resolveWorkload "StatefulSet" s) ++
  (daemonsets.map fun d => resolveWorkload "DaemonSet" d)

/-! ### manage-vpas: VPA creation -/

/-- The comparison of `containsVPATarget`: name, kind and apiVersion of
an existing VPA's target reference against the candidate spec, with Go's
case-sensitive string equality. -/
def vpaTargetMatches (spec : CrossVersionObjectReference) (vpa : VPA) : Bool :=
  vpa.targetRef.name == spec.name && vpa.targetRef.kind == spec.kind &&
    vpa.targetRef.apiVersion == spec.apiVersion

/-- Function `containsVPATarget` of manage-vpas.go: the name of the first existing
VPA whose target matches the spec, if any. -/
def containsVPATarget (spec : CrossVersionObjectReference) : List VPA → Option String
  | [] => none
  | vpa :: rest =>
      if vpaTargetMatches spec vpa then some vpa.name else containsVPATarget spec rest

/-- The target reference `createVPA` builds from a resolved resource. -/
def resourceTargetRef (r : Resource) : CrossVersionObjectReference :=
  { apiVersion := r.apiGroup, kind := r.resourceType, name := r.resourceName }

/-- Function `createVPA` of manage-vpas.go, as the object it creates: `none` when
an existing VPA already has the same target (the skip branch), otherwise
the VPA object passed to the cluster create call. -/
def createVPA (apiGroup resourceType resourceName : String) (vpas : List VPA) : Option VPA :=
  let targetRef : CrossVersionObjectReference :=
    { apiVersion := apiGroup, kind := resourceType, name := resourceName }
  match containsVPATarget targetRef vpas with
  | some _ => none
  | none =>
      some { name := resourceName ++ "-vpa-" ++ vpaSuffix,
             labels := [("source-control-managed", "false"),
                        ("managed-by", "vpa-recommendations-script")],
             targetRef := targetRef,
             updateMode := "Off" }

/-- The per-namespace loop of `main` in manage-vpas.go: for each resolved
resource the VPA list is refreshed (so creations made earlier in the same
pass are visible) and `createVPA` is attempted.  Returns the final VPA
list of the namespace and the list of VPAs created, in creation order. -/
def processResources : List Resource → List VPA → List VPA × List VPA
  | [], vpas => (vpas, [])
  | r :: rest, vpas =>
      match createVPA r.apiGroup r.resourceType r.resourceName vpas with
      | none => processResources rest vpas
      | some v =>
          let p := processResources rest (vpas ++ [v])
          (p.1, v :: p.2)

/-! ### get-recommendations: data model -/

/-- A container of a workload's pod template, restricted to its name and
resource requests (`0` models an absent request, as Go's zero-valued
`Quantity` does). -/
structure Container where
  name : String
  cpuRequestMilli : Int
  memRequestBytes : Int
deriving DecidableEq

/-- The `resourceDrift` struct of get-recommendations.go. -/
structure ResourceDrift where
  currentCPUStr : String
  currentMemStr : String
  currentCPU : Int
  currentMem : Int
  cpuDiff : Int
  memDiff : Int
deriving DecidableEq

/-- Go's zero value of `resourceDrift`. -/
def emptyDrift : ResourceDrift :=
  { currentCPUStr := "", currentMemStr := "", currentCPU := 0, currentMem := 0,
    cpuDiff := 0, memDiff := 0 }

/-- The container lookup loop of `getContainerResourceConfig`:
case-insensitive match on the container name, first hit wins. -/
def findContainer (containers : List Container) (containerName : String) : Option Container :=
  containers.find? fun c => strToLower c.name == strToLower containerName

/-- Function `getContainerResourceConfig` of get-recommendations.go: a zero CPU
milli-value is reported as `NOT_SET`; memory is rendered in truncated
mebibytes and reported as `NOT_SET` exactly when that rendering is
`0Mi`. -/
def getContainerResourceConfig (containers : List Container) (containerName : String) : ResourceDrift :=
  match findContainer containers containerName with
  | none => emptyDrift
  | some container =>
      let cpu := container.cpuRequestMilli
      let d1 :=
        if cpu == 0 then { emptyDrift with currentCPUStr := "NOT_SET" }
        else { emptyDrift with currentCPUStr := toString cpu ++ "m", currentCPU := cpu }
      let mem := toString (Int.tdiv (Int.tdiv container.memRequestBytes 1024) 1024) ++ "Mi"
      if mem == "0Mi" then { d1 with currentMemStr := "NOT_SET" }
      else { d1 with currentMemStr := mem, currentMem := container.memRequestBytes }

/-- Result of a cluster `Get` call for one workload. -/
inductive GetResult
  | found (containers : List Container)
  | notFound
  | failure
deriving DecidableEq

/-- Per-namespace snapshot of the cluster's workload stores, one getter
per supported kind (the Go code dispatches on kind to the corresponding
typed client). -/
structure Cluster where
  getDeployment : String → GetResult
  getStatefulSet : String → GetResult
  getDaemonSet : String → GetResult

/-- Function `resourceExists` of get-recommendations.go: for the three supported
kinds a not-found Get yields `false`, any other Get failure is an error;
every other kind falls through the switch and yields `true`. -/
def resourceExists (cluster : Cluster) (resourceName resourceType : String) : Except String Bool :=
  if resourceType = "Deployment" then
    match cluster.getDeployment resourceName with
    | .notFound => .ok false
    | .failure => .error ("error getting deployment " ++ resourceName)
    | .found _ => .ok true
  else if resourceType = "StatefulSet" then
    match cluster.getStatefulSet resourceName with
    | .notFound => .ok false
    | .failure => .error ("error getting statefuleset " ++ resourceName)
    | .found _ => .ok true
  else if resourceType = "DaemonSet" then
    match cluster.getDaemonSet resourceName with
    | .notFound => .ok false
    | .failure => .error ("error getting daemonset " ++ resourceName)
    | .found _ => .ok true
  else .ok true

/-- Function `currentResourceConfig` of get-recommendations.go: fetch the workload
of a supported kind (any Get error, not-found included, propagates) and
read the container's requests; an unsupported kind skips the switch and
returns the zero-valued drift. -/
def currentResourceConfig (cluster : Cluster) (resourceName resourceType containerName : String) :
    Except String ResourceDrift :=
  if resourceType = "Deployment" then
    match cluster.getDeployment resourceName with
    | .found cs => .ok (getContainerResourceConfig cs containerName)
    | _ => .error ("error getting deployment " ++ resourceName)
  else if resourceType = "StatefulSet" then
    match cluster.getStatefulSet resourceName with
    | .found cs => .ok (getContainerResourceConfig cs containerName)
    | _ => .error ("error getting statefuleset " ++ resourceName)
  else if resourceType = "DaemonSet" then
    match cluster.getDaemonSet resourceName with
    | .found cs => .ok (getContainerResourceConfig cs containerName)
    | _ => .error ("error getting daemonsets " ++ resourceName)
  else .ok emptyDrift

/-- The memory rendering of `main`: `memoryTargetBytes / 1024 / 1024`
with Go's truncating `int64` division, formatted as `<N>Mi`. -/
def formatMemoryTarget (bytes : Int) : String :=
  toString (Int.tdiv (Int.tdiv bytes 1024) 1024) ++ "Mi"

/-- The two diff assignments of `main`: each diff is filled in only when
the corresponding current string differs from `NOT_SET`, otherwise it
keeps its zero value. -/
def applyDiff (cpuTargetMilli memoryTargetBytes : Int) (rc : ResourceDrift) : ResourceDrift :=
  let rc1 :=
    if rc.currentCPUStr == "NOT_SET" then rc
    else { rc with cpuDiff := cpuTargetMilli - rc.currentCPU }
  if rc1.currentMemStr == "NOT_SET" then rc1
  else { rc1 with memDiff := memoryTargetBytes - rc1.currentMem }

/-- One entry of `vpa.Status.Recommendation.ContainerRecommendations`,
projected to the fields `main` reads from the uncapped target. -/
structure ContainerRecommendation where
  containerName : String
  uncappedCPUMilli : Int
  uncappedCPUStr : String
  uncappedMemoryBytes : Int
deriving DecidableEq

/-- A HorizontalPodAutoscaler, projected to its scale target. -/
structure HPA where
  name : String
  scaleTargetRef : CrossVersionObjectReference
deriving DecidableEq

/-- Function `hpaMappings` of get-recommendations.go: the scale targets of every
HPA of the namespace, in listing order. -/
def hpaMappings (hpas : List HPA) : List CrossVersionObjectReference :=
  hpas.map fun hpa => hpa.scaleTargetRef

/-- The HPA-overlap loop of `main`: the flag starts false and is set when
some scale target matches the row's kind and name case-insensitively. -/
def computeHasHPA (hpaMapping : List CrossVersionObjectReference)
    (resourceType resourceName : String) : Bool :=
  hpaMapping.any fun hpa =>
    strToLower hpa.kind == strToLower resourceType &&
      strToLower hpa.name == strToLower resourceName

/-- The `containerConfig` struct of get-recommendations.go (one report
row). -/
structure ContainerConfigRow where
  ns : String
  resourceType : String
  resourceName : String
  containerName : String
  vpaName : String
  targetCPUStr : String
  targetMemoryStr : String
  currentConfig : ResourceDrift
  hasHPA : Bool
deriving DecidableEq

/-- Abnormal terminations of the reporting job: a panic on a cluster
error, or a nil-pointer dereference panic. -/
inductive Crash
  | clusterError (msg : String)
  | nilDeref
deriving DecidableEq

/-- A VPA as the reporting job reads it: `Spec.TargetRef` and
`Status.Recommendation` are pointers in the Go API and may be nil. -/
structure RecVPA where
  name : String
  targetRef : Option CrossVersionObjectReference
  recommendation : Option (List ContainerRecommendation)
deriving DecidableEq

/-- The per-container body of `main`'s inner loop: render the targets,
fetch the current requests (a failure panics), fill in the diffs and the
HPA flag, and emit the row. -/
def buildRow (cluster : Cluster) (hpaMapping : List CrossVersionObjectReference)
    (ns vpaName : String) (targetRef : CrossVersionObjectReference)
    (cr : ContainerRecommendation) : Except Crash ContainerConfigRow :=
  match currentResourceConfig cluster targetRef.name targetRef.kind cr.containerName with
  | .error e => .error (.clusterError e)
  | .ok resourceConfig =>
      .ok { ns := ns,
            resourceType := targetRef.kind,
            resourceName := targetRef.name,
            containerName := cr.containerName,
            vpaName := vpaName,
            targetCPUStr := cr.uncappedCPUStr,
            targetMemoryStr := formatMemoryTarget cr.uncappedMemoryBytes,
            currentConfig := applyDiff cr.uncappedCPUMilli cr.uncappedMemoryBytes resourceConfig,
            hasHPA := computeHasHPA hpaMapping targetRef.kind targetRef.name }

/-- The container loop of `main` over one VPA's recommendations. -/
def buildRows (cluster : Cluster) (hpaMapping : List CrossVersionObjectReference)
    (ns vpaName : String) (targetRef : CrossVersionObjectReference) :
    List ContainerRecommendation → Except Crash (List ContainerConfigRow)
  | [] => .ok []
  | cr :: rest =>
      match buildRow cluster hpaMapping ns vpaName targetRef cr with
      | .error e => .error e
      | .ok row =>
          match buildRows cluster hpaMapping ns vpaName targetRef rest with
          | .error e => .error e
          | .ok rows => .ok (row :: rows)

/-- The per-VPA body of `main` in get-recommendations.go: dereference
`Spec.TargetRef`, check the target still exists (a failure panics, a
missing target skips the VPA with zero rows), then dereference
`Status.Recommendation` and build one row per container recommendation. -/
def processVPA (cluster : Cluster) (hpaMapping : List CrossVersionObjectReference)
    (ns : String) (vpa : RecVPA) : Except Crash (List ContainerConfigRow) :=
  match vpa.targetRef with
  | none => .error .nilDeref
  | some targetRef =>
      match resourceExists cluster targetRef.name targetRef.kind with
      | .error e => .error (.clusterError e)
      | .ok false => .ok []
      | .ok true =>
          match vpa.recommendation with
          | none => .error .nilDeref
          | some recs => buildRows cluster hpaMapping ns vpa.name targetRef recs

/-! ### Concrete cluster snapshots used as test inputs -/

/-- A cluster snapshot where every workload fetch reports not-found. -/
def clusterAllNotFound : Cluster :=
  { getDeployment := fun _ => .notFound,
    getStatefulSet := fun _ => .notFound,
    getDaemonSet := fun _ => .notFound }

/-- A cluster snapshot where every workload fetch fails. -/
def clusterAllFailure : Cluster :=
  { getDeployment := fun _ => .failure,
    getStatefulSet := fun _ => .failure,
    getDaemonSet := fun _ => .failure }

/-- A cluster snapshot holding one Deployment `api` with one container. -/
def clusterShop : Cluster :=
  { getDeployment := fun n =>
      if n = "api" then
        .found [{ name := "app", cpuRequestMilli := 250, memRequestBytes := 2147483648 }]
      else .notFound,
    getStatefulSet := fun _ => .notFound,
    getDaemonSet := fun _ => .notFound }

/-- The HPAs of the `shop` namespace: one HPA whose scale target names
the Deployment `api` with different letter case. -/
def hpasShop : List HPA :=
  [{ name := "api-hpa",
     scaleTargetRef := { apiVersion := "apps/v1", kind := "deployment", name := "API" } }]

/-- The report row the collector produces for the `api` Deployment of
`clusterShop` under `hpasShop`. -/
def rowShop : ContainerConfigRow :=
  { ns := "shop", resourceType := "Deployment", resourceName := "api", containerName := "app",
    vpaName := "api-vpa", targetCPUStr := "500m", targetMemoryStr := "3072Mi",
    currentConfig := { currentCPUStr := "250m", currentMemStr := "2048Mi", currentCPU := 250,
                       currentMem := 2147483648, cpuDiff := 250, memDiff := 1073741824 },
    hasHPA := true }

/-! ### Lemmas: owner resolution -/

theorem findController_append (pre : List OwnerReference) (ref : OwnerReference)
    (post : List OwnerReference) (hpre : ∀ x ∈ pre, x.controller = false)
    (href : ref.controller = true) :
    findController (pre ++ ref :: post) = some ref := by
  induction pre with
  | nil => simp [findController, href]
  | cons x xs ih =>
      have hx : x.controller = false := hpre x (by simp)
      simp only [List.cons_append, findController, hx, Bool.false_eq_true, if_false]
      exact ih fun y hy => hpre y (by simp [hy])

theorem findController_eq_none (l : List OwnerReference)
    (h : ∀ x ∈ l, x.controller = false) : findController l = none := by
  induction l with
  | nil => rfl
  | cons x xs ih =>
      simp only [findController, h x (by simp), Bool.false_eq_true, if_false]
      exact ih fun y hy => h y (by simp [hy])

/-! ### Lemmas: VPA target membership and creation -/

theorem cvor_ext (a b : CrossVersionObjectReference) (h1 : a.apiVersion = b.apiVersion)
    (h2 : a.kind = b.kind) (h3 : a.name = b.name) : a = b := by
  cases a; cases b; simp_all

theorem vpaTargetMatches_iff (spec : CrossVersionObjectReference) (vpa : VPA) :
    vpaTargetMatches spec vpa = true ↔ vpa.targetRef = spec := by
  simp only [vpaTargetMatches, Bool.and_eq_true, beq_iff_eq]
  constructor
  · rintro ⟨⟨hn, hk⟩, ha⟩
    exact cvor_ext _ _ ha hk hn
  · intro h
    simp [h]

theorem containsVPATarget_eq_none_iff (spec : CrossVersionObjectReference) (vpas : List VPA) :
    containsVPATarget spec vpas = none ↔ ∀ v ∈ vpas, v.targetRef ≠ spec := by
  induction vpas with
  | nil => simp [containsVPATarget]
  | cons v rest ih =>
      by_cases h : vpaTargetMatches spec v = true
      · rw [containsVPATarget, if_pos h]
        simp only [List.forall_mem_cons]
        constructor
        · intro hcontra; exact absurd hcontra (by simp)
        · rintro ⟨hv, _⟩
          exact absurd ((vpaTargetMatches_iff spec v).mp h) hv
      · rw [containsVPATarget, if_neg h, ih]
        simp only [List.forall_mem_cons]
        constructor
        · intro hrest
          exact ⟨fun heq => h ((vpaTargetMatches_iff spec v).mpr heq), hrest⟩
        · intro hall; exact hall.2

theorem containsVPATarget_eq_some_spec (spec : CrossVersionObjectReference) (vpas : List VPA)
    (nm : String) (h : containsVPATarget spec vpas = some nm) :
    ∃ w ∈ vpas, w.targetRef = spec := by
  induction vpas with
  | nil => simp [containsVPATarget] at h
  | cons v rest ih =>
      by_cases hm : vpaTargetMatches spec v = true
      · exact ⟨v, by simp, (vpaTargetMatches_iff spec v).mp hm⟩
      · rw [containsVPATarget, if_neg hm] at h
        obtain ⟨w, hw, ht⟩ := ih h
        exact ⟨w, by simp [hw], ht⟩

theorem createVPA_some_spec (a k n : String) (vpas : List VPA) (v : VPA)
    (h : createVPA a k n vpas = some v) :
    v.targetRef = ⟨a, k, n⟩ ∧ ∀ w ∈ vpas, w.targetRef ≠ ⟨a, k, n⟩ := by
  cases hc : containsVPATarget ⟨a, k, n⟩ vpas with
  | some nm => simp only [createVPA, hc] at h; exact absurd h (by simp)
  | none =>
      simp only [createVPA, hc, Option.some.injEq] at h
      exact ⟨by rw [← h], (containsVPATarget_eq_none_iff _ _).mp hc⟩

theorem createVPA_none_of_mem (a k n : String) (vpas : List VPA) (w : VPA)
    (hw : w ∈ vpas) (ht : w.targetRef = ⟨a, k, n⟩) :
    createVPA a k n vpas = none := by
  cases hc : containsVPATarget ⟨a, k, n⟩ vpas with
  | some nm => simp [createVPA, hc]
  | none => exact absurd ht ((containsVPATarget_eq_none_iff _ _).mp hc w hw)

theorem createVPA_none_spec (a k n : String) (vpas : List VPA)
    (h : createVPA a k n vpas = none) : ∃ w ∈ vpas, w.targetRef = ⟨a, k, n⟩ := by
  cases hc : containsVPATarget ⟨a, k, n⟩ vpas with
  | some nm => exact containsVPATarget_eq_some_spec _ _ nm hc
  | none => simp only [createVPA, hc] at h; exact absurd h (by simp)

/-! ### Lemmas: the provisioning pass -/

theorem processResources_fst (rs : List Resource) (vpas : List VPA) :
    (processResources rs vpas).1 = vpas ++ (processResources rs vpas).2 := by
  induction rs generalizing vpas with
  | nil => simp [processResources]
  | cons r rest ih =>
      unfold processResources
      cases h : createVPA r.apiGroup r.resourceType r.resourceName vpas with
      | none => simpa using ih vpas
      | some v => simp [ih (vpas ++ [v])]

theorem processResources_created_spec (rs : List Resource) (vpas : List VPA) :
    (∀ v ∈ (processResources rs vpas).2, ∀ w ∈ vpas, w.targetRef ≠ v.targetRef) ∧
    (processResources rs vpas).2.Pairwise (fun a b => a.targetRef ≠ b.targetRef) := by
  induction rs generalizing vpas with
  | nil => simp [processResources]
  | cons r rest ih =>
      unfold processResources
      cases h : createVPA r.apiGroup r.resourceType r.resourceName vpas with
      | none => exact ih vpas
      | some v =>
          obtain ⟨hvt, hnotin⟩ := createVPA_some_spec _ _ _ _ _ h
          obtain ⟨ih1, ih2⟩ := ih (vpas ++ [v])
          constructor
          · intro u hu w hw
            rcases List.mem_cons.mp hu with rfl | hu'
            · rw [hvt]; exact hnotin w hw
            · exact ih1 u hu' w (List.mem_append_left _ hw)
          · refine List.pairwise_cons.mpr ⟨?_, ih2⟩
            intro u hu
            exact fun heq => ih1 u hu v (by simp) (heq ▸ rfl)

theorem processResources_covers (rs : List Resource) (vpas : List VPA) :
    ∀ r ∈ rs, ∃ w ∈ (processResources rs vpas).1, w.targetRef = resourceTargetRef r := by
  induction rs generalizing vpas with
  | nil => simp
  | cons r0 rest ih =>
      intro r hr
      unfold processResources
      cases h : createVPA r0.apiGroup r0.resourceType r0.resourceName vpas with
      | none =>
          rcases List.mem_cons.mp hr with rfl | hr'
          · obtain ⟨w, hw, ht⟩ := createVPA_none_spec _ _ _ _ h
            refine ⟨w, ?_, ht⟩
            rw [processResources_fst]
            exact List.mem_append_left _ hw
          · exact ih vpas r hr'
      | some v =>
          rcases List.mem_cons.mp hr with rfl | hr'
          · obtain ⟨hvt, _⟩ := createVPA_some_spec _ _ _ _ _ h
            refine ⟨v, ?_, hvt⟩
            rw [processResources_fst]
            exact List.mem_append_left _ (by simp)
          · exact ih (vpas ++ [v]) r hr'

theorem processResources_skip (rs : List Resource) (vpas : List VPA)
    (h : ∀ r ∈ rs, ∃ w ∈ vpas, w.targetRef = resourceTargetRef r) :
    processResources rs vpas = (vpas, []) := by
  induction rs with
  | nil => rfl
  | cons r rest ih =>
      obtain ⟨w, hw, ht⟩ := h r (by simp)
      unfold processResources
      rw [createVPA_none_of_mem r.apiGroup r.resourceType r.resourceName vpas w hw ht]
      exact ih fun r' hr' => h r' (by simp [hr'])

theorem pairwise_filter_length_le_one (l : List VPA) (t : CrossVersionObjectReference)
    (h : l.Pairwise fun a b => a.targetRef ≠ b.targetRef) :
    (l.filter fun v => decide (v.targetRef = t)).length ≤ 1 := by
  have hp : (l.filter fun v => decide (v.targetRef = t)).Pairwise
      (fun a b => a.targetRef ≠ b.targetRef) := h.sublist (List.filter_sublist l)
  cases hf : l.filter fun v => decide (v.targetRef = t) with
  | nil => simp
  | cons a rest =>
      cases rest with
      | nil => simp
      | cons b rest2 =>
          exfalso
          rw [hf] at hp
          have hab := (List.pairwise_cons.mp hp).1 b (by simp)
          have haf : a ∈ l.filter fun v => decide (v.targetRef = t) := by rw [hf]; simp
          have hbf : b ∈ l.filter fun v => decide (v.targetRef = t) := by rw [hf]; simp
          have ha : a.targetRef = t := of_decide_eq_true (List.mem_filter.mp haf).2
          have hb : b.targetRef = t := of_decide_eq_true (List.mem_filter.mp hbf).2
          exact hab (ha.trans hb.symm)

/-! ### Claim theorems: provisioning job -/

/-- Claim C1: a workload whose owner references contain a controlling
entry resolves to that entry's (apiVersion, kind, name), taking the first
controlling entry encountered; a workload with no controlling owner
(empty list included) resolves to ("apps/v1", own kind, own name). -/
theorem owner_resolution (kindStr : String) (m : ObjectMeta)
    (pre post : List OwnerReference) (ref : OwnerReference) :
    (m.ownerReferences = pre ++ ref :: post → (∀ x ∈ pre, x.controller = false) →
       ref.controller = true →
       resolveWorkload kindStr m =
         { apiGroup := ref.apiVersion, resourceType := ref.kind, resourceName := ref.name }) ∧
    ((∀ x ∈ m.ownerReferences, x.controller = false) →
       resolveWorkload kindStr m =
         { apiGroup := "apps/v1", resourceType := kindStr, resourceName := m.name }) := by
  constructor
  · intro hsplit hpre href
    unfold resolveWorkload checkOwnedBy
    rw [hsplit, if_neg (by simp), findController_append pre ref post hpre href]
  · intro hall
    unfold resolveWorkload checkOwnedBy
    by_cases h : m.ownerReferences = []
    · rw [if_pos h]
    · rw [if_neg h, findController_eq_none _ hall]

theorem owner_resolution_witness :
    resolveWorkload "StatefulSet"
        { name := "cache",
          ownerReferences := [{ apiVersion := "monitoring.coreos.com/v1", kind := "Prometheus",
                                name := "monitoring", controller := true }] } =
      { apiGroup := "monitoring.coreos.com/v1", resourceType := "Prometheus",
        resourceName := "monitoring" } ∧
    resolveWorkload "Deployment" { name := "web", ownerReferences := [] } =
      { apiGroup := "apps/v1", resourceType := "Deployment", resourceName := "web" } :=
  ⟨(owner_resolution "StatefulSet" _ [] []
      { apiVersion := "monitoring.coreos.com/v1", kind := "Prometheus",
        name := "monitoring", controller := true }).1 rfl (by simp) rfl,
   (owner_resolution "Deployment" { name := "web", ownerReferences := [] } [] []
      { apiVersion := "", kind := "", name := "", controller := false }).2 (by simp)⟩

/-- Claim C2: within one pass over a namespace at most one VPA creation is
issued per resolved target; when the target is absent from the initial
set and is resolved by some workload, exactly one is created.  The
membership test is exact, case-sensitive equality on (apiVersion, kind,
name), and each iteration sees the creations of earlier iterations. -/
theorem no_duplicate_creations (rs : List Resource) (vpas : List VPA)
    (t : CrossVersionObjectReference) :
    (∀ v : VPA, vpaTargetMatches t v = true ↔ v.targetRef = t) ∧
    ((processResources rs vpas).2.filter fun v => decide (v.targetRef = t)).length ≤ 1 ∧
    ((∀ w ∈ vpas, w.targetRef ≠ t) → (∃ r ∈ rs, resourceTargetRef r = t) →
      ((processResources rs vpas).2.filter fun v => decide (v.targetRef = t)).length = 1) := by
  have hspec := processResources_created_spec rs vpas
  refine ⟨fun v => vpaTargetMatches_iff t v, pairwise_filter_length_le_one _ t hspec.2, ?_⟩
  rintro hnot ⟨r, hr, hrt⟩
  obtain ⟨w, hw, hwt⟩ := processResources_covers rs vpas r hr
  rw [processResources_fst] at hw
  have hwtt : w.targetRef = t := hwt.trans hrt
  rcases List.mem_append.mp hw with hin | hin
  · exact absurd hwtt (hnot w hin)
  · have hmem : w ∈ (processResources rs vpas).2.filter fun v => decide (v.targetRef = t) :=
      List.mem_filter.mpr ⟨hin, decide_eq_true hwtt⟩
    have h1 := pairwise_filter_length_le_one _ t hspec.2
    have h2 : 0 < ((processResources rs vpas).2.filter
        fun v => decide (v.targetRef = t)).length :=
      List.length_pos.mpr (List.ne_nil_of_mem hmem)
    omega

theorem no_duplicate_creations_witness :
    ((processResources
        [{ apiGroup := "monitoring.coreos.com/v1", resourceType := "Prometheus",
           resourceName := "monitoring" },
         { apiGroup := "monitoring.coreos.com/v1", resourceType := "Prometheus",
           resourceName := "monitoring" }] []).2.filter fun v =>
      decide (v.targetRef =
        { apiVersion := "monitoring.coreos.com/v1", kind := "Prometheus",
          name := "monitoring" })).length = 1 :=
  (no_duplicate_creations _ [] _).2.2 (by simp)
    ⟨{ apiGroup := "monitoring.coreos.com/v1", resourceType := "Prometheus",
       resourceName := "monitoring" }, by simp, rfl⟩

/-- Claim C3: provisioning is idempotent — a second pass over the state
produced by a first pass creates no VPA and leaves the state unchanged. -/
theorem provisioning_idempotent (rs : List Resource) (vpas : List VPA) :
    processResources rs ((processResources rs vpas).1) = ((processResources rs vpas).1, []) :=
  processResources_skip rs _ fun r hr => processResources_covers rs vpas r hr

/-- Claim C4: a VPA created for a target missing from the existing set
has name `<targetName>-vpa-<vpaSuffix>`, exactly the two fixed labels,
update mode `Off`, and a target reference equal to the resolved target. -/
theorem created_vpa_shape (apiGroup resourceType resourceName : String) (vpas : List VPA)
    (h : containsVPATarget ⟨apiGroup, resourceType, resourceName⟩ vpas = none) :
    ∃ v, createVPA apiGroup resourceType resourceName vpas = some v ∧
      v.name = resourceName ++ "-vpa-" ++ vpaSuffix ∧
      v.labels = [("source-control-managed", "false"),
                  ("managed-by", "vpa-recommendations-script")] ∧
      v.updateMode = "Off" ∧
      v.targetRef = ⟨apiGroup, resourceType, resourceName⟩ := by
  have hcv : createVPA apiGroup resourceType resourceName vpas =
      some { name := resourceName ++ "-vpa-" ++ vpaSuffix,
             labels := [("source-control-managed", "false"),
                        ("managed-by", "vpa-recommendations-script")],
             targetRef := ⟨apiGroup, resourceType, resourceName⟩,
             updateMode := "Off" } := by
    simp only [createVPA, h]
  exact ⟨_, hcv, rfl, rfl, rfl, rfl⟩

theorem created_vpa_shape_witness :
    ∃ v, createVPA "apps/v1" "Deployment" "web" [] = some v ∧
      v.name = "web" ++ "-vpa-" ++ vpaSuffix ∧
      v.labels = [("source-control-managed", "false"),
                  ("managed-by", "vpa-recommendations-script")] ∧
      v.updateMode = "Off" ∧
      v.targetRef = ⟨"apps/v1", "Deployment", "web"⟩ :=
  created_vpa_shape "apps/v1" "Deployment" "web" [] rfl

/-! ### Lemmas: string renderings never collide with the markers -/

theorem append_m_ne_marker (s : String) : s ++ "m" ≠ "NOT_SET" := by
  intro h
  have hd := congrArg String.data h
  rw [String.data_append] at hd
  have hd' : s.data ++ ['m'] = ['N', 'O', 'T', '_', 'S', 'E', 'T'] := hd
  have hl : (s.data ++ ['m']).getLast? = some 'm' := List.getLast?_concat _
  rw [hd'] at hl
  exact absurd hl (by decide)

theorem append_Mi_ne_marker (s : String) : s ++ "Mi" ≠ "NOT_SET" := by
  intro h
  have hd := congrArg String.data h
  rw [String.data_append] at hd
  have hd' : (s.data ++ ['M']) ++ ['i'] = ['N', 'O', 'T', '_', 'S', 'E', 'T'] := by
    rw [List.append_assoc]; exact hd
  have hl : ((s.data ++ ['M']) ++ ['i']).getLast? = some 'i' := List.getLast?_concat _
  rw [hd'] at hl
  exact absurd hl (by decide)

/-! ### Lemmas: the reporting job never nil-panics past the nil checks -/

theorem buildRow_ne_nilDeref (cluster : Cluster) (hm : List CrossVersionObjectReference)
    (ns vn : String) (tr : CrossVersionObjectReference) (cr : ContainerRecommendation) :
    buildRow cluster hm ns vn tr cr ≠ .error .nilDeref := by
  cases hcc : currentResourceConfig cluster tr.name tr.kind cr.containerName with
  | error e => simp [buildRow, hcc]
  | ok rc => simp [buildRow, hcc]

theorem buildRows_ne_nilDeref (cluster : Cluster) (hm : List CrossVersionObjectReference)
    (ns vn : String) (tr : CrossVersionObjectReference) (recs : List ContainerRecommendation) :
    buildRows cluster hm ns vn tr recs ≠ .error .nilDeref := by
  induction recs with
  | nil => simp [buildRows]
  | cons cr rest ih =>
      intro hcontra
      unfold buildRows at hcontra
      cases hbr : buildRow cluster hm ns vn tr cr with
      | error e =>
          rw [hbr] at hcontra
          injection hcontra with he
          exact buildRow_ne_nilDeref cluster hm ns vn tr cr (he ▸ hbr)
      | ok row =>
          rw [hbr] at hcontra
          cases hbs : buildRows cluster hm ns vn tr rest with
          | error e =>
              rw [hbs] at hcontra
              injection hcontra with he
              exact ih (he ▸ hbs)
          | ok rows =>
              rw [hbs] at hcontra
              exact absurd hcontra (by simp)

/-! ### Claim theorems: reporting job -/

/-- Claim C5 (amended): for a row whose container is found, a nonzero
current CPU milli-value yields `cpuDiff = recommended - current` and a
zero one yields `NOT_SET` with `cpuDiff = 0`; for memory the set/unset
test is on the truncated-mebibyte rendering: a rendering other than
`0Mi` yields `memDiff = recommended - current` in bytes, while a `0Mi`
rendering — any request below one mebibyte, zero and missing included —
yields `NOT_SET` with `memDiff = 0`. -/
theorem drift_computation (containers : List Container) (cname : String) (c : Container)
    (hfind : findContainer containers cname = some c) (cpuT memT : Int) :
    (c.cpuRequestMilli ≠ 0 →
       (applyDiff cpuT memT (getContainerResourceConfig containers cname)).cpuDiff =
         cpuT - c.cpuRequestMilli) ∧
    (c.cpuRequestMilli = 0 →
       (getContainerResourceConfig containers cname).currentCPUStr = "NOT_SET" ∧
       (applyDiff cpuT memT (getContainerResourceConfig containers cname)).cpuDiff = 0) ∧
    (toString (Int.tdiv (Int.tdiv c.memRequestBytes 1024) 1024) ++ "Mi" ≠ "0Mi" →
       (applyDiff cpuT memT (getContainerResourceConfig containers cname)).memDiff =
         memT - c.memRequestBytes) ∧
    (toString (Int.tdiv (Int.tdiv c.memRequestBytes 1024) 1024) ++ "Mi" = "0Mi" →
       (getContainerResourceConfig containers cname).currentMemStr = "NOT_SET" ∧
       (applyDiff cpuT memT (getContainerResourceConfig containers cname)).memDiff = 0) := by
  by_cases hc : c.cpuRequestMilli = 0 <;>
    by_cases hm : toString (Int.tdiv (Int.tdiv c.memRequestBytes 1024) 1024) ++ "Mi" = "0Mi" <;>
      simp [getContainerResourceConfig, hfind, applyDiff, emptyDrift, hc, hm,
            append_m_ne_marker, append_Mi_ne_marker]

/-- Claim C5 counterexample: a memory request of 524288 bytes (512Ki) is
set in the container spec, yet the current-memory field reports
`NOT_SET` and the memory diff stays `0` instead of
`recommended - current`. -/
theorem drift_computation_counterexample :
    ({ name := "app", cpuRequestMilli := 250, memRequestBytes := 524288 } :
        Container).memRequestBytes ≠ 0 ∧
    (getContainerResourceConfig
        [{ name := "app", cpuRequestMilli := 250, memRequestBytes := 524288 }]
        "app").currentMemStr = "NOT_SET" ∧
    (applyDiff 500 2147483648
        (getContainerResourceConfig
          [{ name := "app", cpuRequestMilli := 250, memRequestBytes := 524288 }]
          "app")).memDiff = 0 ∧
    (2147483648 : Int) - 524288 ≠ 0 := by decide

theorem drift_computation_witness :
    (applyDiff 500 3221225472
        (getContainerResourceConfig
          [{ name := "app", cpuRequestMilli := 250, memRequestBytes := 2147483648 }]
          "app")).cpuDiff = 250 ∧
    (applyDiff 500 3221225472
        (getContainerResourceConfig
          [{ name := "app", cpuRequestMilli := 250, memRequestBytes := 2147483648 }]
          "app")).memDiff = 1073741824 := by
  have h := drift_computation
      [{ name := "app", cpuRequestMilli := 250, memRequestBytes := 2147483648 }] "app"
      { name := "app", cpuRequestMilli := 250, memRequestBytes := 2147483648 }
      (by decide) 500 3221225472
  exact ⟨(h.1 (by decide)).trans (by decide), (h.2.2.1 (by decide)).trans (by decide)⟩

/-- Claim C6 (amended): for a target kind other than Deployment,
StatefulSet and DaemonSet the lookup performs no fetch and returns the
zero-valued drift, whose current-value strings are empty — not the
`NOT_SET` marker — so both diffs are then computed against a zero
current value and equal the full recommended values. -/
theorem unsupported_kind_lookup (cluster : Cluster)
    (resourceName resourceType containerName : String)
    (h1 : resourceType ≠ "Deployment") (h2 : resourceType ≠ "StatefulSet")
    (h3 : resourceType ≠ "DaemonSet") (cpuT memT : Int) :
    currentResourceConfig cluster resourceName resourceType containerName = .ok emptyDrift ∧
    emptyDrift.currentCPUStr = "" ∧ emptyDrift.currentMemStr = "" ∧
    (applyDiff cpuT memT emptyDrift).cpuDiff = cpuT ∧
    (applyDiff cpuT memT emptyDrift).memDiff = memT := by
  refine ⟨?_, rfl, rfl, ?_, ?_⟩
  · simp [currentResourceConfig, h1, h2, h3]
  · simp [applyDiff, emptyDrift]
  · simp [applyDiff, emptyDrift]

/-- Claim C6 counterexample: for a VPA targeting the custom kind
`Prometheus` the lookup yields empty current strings, not the `NOT_SET`
marker, and both diffs are computed — they equal the full recommended
values (500 milli-CPU, 2147483648 bytes) instead of staying at zero. -/
theorem unsupported_kind_lookup_counterexample :
    currentResourceConfig clusterAllNotFound "monitoring" "Prometheus" "app" = .ok emptyDrift ∧
    emptyDrift.currentCPUStr ≠ "NOT_SET" ∧ emptyDrift.currentMemStr ≠ "NOT_SET" ∧
    (applyDiff 500 2147483648 emptyDrift).cpuDiff = 500 ∧ (500 : Int) ≠ 0 ∧
    (applyDiff 500 2147483648 emptyDrift).memDiff = 2147483648 ∧ (2147483648 : Int) ≠ 0 :=
  ⟨rfl, by decide, by decide, by decide, by decide, by decide, by decide⟩

theorem unsupported_kind_lookup_witness :
    currentResourceConfig clusterAllNotFound "monitoring" "Prometheus" "app" = .ok emptyDrift ∧
    (applyDiff 500 2147483648 emptyDrift).cpuDiff = 500 :=
  ⟨(unsupported_kind_lookup clusterAllNotFound "monitoring" "Prometheus" "app"
      (by decide) (by decide) (by decide) 500 2147483648).1,
   (unsupported_kind_lookup clusterAllNotFound "monitoring" "Prometheus" "app"
      (by decide) (by decide) (by decide) 500 2147483648).2.2.2.1⟩

/-- Claim C7: a VPA whose target fetch reports not-found is skipped with
zero rows and no error, while a fetch failure other than not-found
aborts the run with an error. -/
theorem stale_target_skip (cluster : Cluster) (hm : List CrossVersionObjectReference)
    (ns : String) (vpa : RecVPA) (targetRef : CrossVersionObjectReference)
    (h : vpa.targetRef = some targetRef) :
    (targetRef.kind = "Deployment" → cluster.getDeployment targetRef.name = .notFound →
       resourceExists cluster targetRef.name targetRef.kind = .ok false) ∧
    (targetRef.kind = "StatefulSet" → cluster.getStatefulSet targetRef.name = .notFound →
       resourceExists cluster targetRef.name targetRef.kind = .ok false) ∧
    (targetRef.kind = "DaemonSet" → cluster.getDaemonSet targetRef.name = .notFound →
       resourceExists cluster targetRef.name targetRef.kind = .ok false) ∧
    (resourceExists cluster targetRef.name targetRef.kind = .ok false →
       processVPA cluster hm ns vpa = .ok []) ∧
    (∀ e, resourceExists cluster targetRef.name targetRef.kind = .error e →
       processVPA cluster hm ns vpa = .error (.clusterError e)) := by
  refine ⟨?_, ?_, ?_, ?_, ?_⟩
  · intro hk hget; simp [resourceExists, hk, hget]
  · intro hk hget; simp [resourceExists, hk, hget]
  · intro hk hget; simp [resourceExists, hk, hget]
  · intro hex; simp only [processVPA, h, hex]
  · intro e hex; simp only [processVPA, h, hex]

theorem stale_target_skip_witness :
    processVPA clusterAllNotFound [] "shop"
        { name := "gone-vpa", targetRef := some ⟨"apps/v1", "Deployment", "gone"⟩,
          recommendation := some [] } = .ok [] ∧
    processVPA clusterAllFailure [] "shop"
        { name := "bad-vpa", targetRef := some ⟨"apps/v1", "Deployment", "bad"⟩,
          recommendation := some [] } =
      .error (.clusterError ("error getting deployment " ++ "bad")) :=
  ⟨(stale_target_skip clusterAllNotFound [] "shop" _ ⟨"apps/v1", "Deployment", "gone"⟩
      rfl).2.2.2.1 (by rfl),
   (stale_target_skip clusterAllFailure [] "shop" _ ⟨"apps/v1", "Deployment", "bad"⟩
      rfl).2.2.2.2 ("error getting deployment " ++ "bad") (by rfl)⟩

/-- Claim C8: a report row's HPA flag is true exactly when some HPA of
the namespace has a scale target whose kind and name both match the
row's target kind and name case-insensitively. -/
theorem hpa_overlap_case_insensitive (cluster : Cluster) (hpas : List HPA)
    (ns vpaName : String) (targetRef : CrossVersionObjectReference)
    (cr : ContainerRecommendation) (row : ContainerConfigRow)
    (h : buildRow cluster (hpaMappings hpas) ns vpaName targetRef cr = .ok row) :
    (row.hasHPA = true ↔
      ∃ hpa ∈ hpas, strToLower hpa.scaleTargetRef.kind = strToLower targetRef.kind ∧
        strToLower hpa.scaleTargetRef.name = strToLower targetRef.name) := by
  cases hcc : currentResourceConfig cluster targetRef.name targetRef.kind cr.containerName with
  | error e => simp only [buildRow, hcc] at h; exact absurd h (by simp)
  | ok rc =>
      simp only [buildRow, hcc, Except.ok.injEq] at h
      subst h
      simp [computeHasHPA, hpaMappings, List.any_map, List.any_eq_true, Function.comp,
            beq_iff_eq]

theorem hpa_overlap_case_insensitive_witness : rowShop.hasHPA = true :=
  (hpa_overlap_case_insensitive clusterShop hpasShop "shop" "api-vpa"
      ⟨"apps/v1", "Deployment", "api"⟩
      { containerName := "app", uncappedCPUMilli := 500, uncappedCPUStr := "500m",
        uncappedMemoryBytes := 3221225472 } rowShop (by rfl)).mpr
    ⟨{ name := "api-hpa",
       scaleTargetRef := { apiVersion := "apps/v1", kind := "deployment", name := "API" } },
     by decide, by decide, by decide⟩

/-- Claim C9: the reported target memory string for an uncapped
recommendation of B bytes (B nonnegative) is `<N>Mi` with N the
truncating integer division of B by 1048576. -/
theorem memory_target_formatting (b : Int) (h : 0 ≤ b) :
    formatMemoryTarget b = toString (Int.tdiv b 1048576) ++ "Mi" := by
  obtain ⟨n, rfl⟩ := Int.eq_ofNat_of_zero_le h
  have h1 : Int.tdiv (Int.tdiv (n : Int) 1024) 1024 = ((n / 1024 / 1024 : Nat) : Int) := by
    norm_cast
  have h2 : Int.tdiv (n : Int) 1048576 = ((n / 1048576 : Nat) : Int) := by norm_cast
  unfold formatMemoryTarget
  rw [h1, h2, Nat.div_div_eq_div_mul]

theorem memory_target_formatting_witness :
    formatMemoryTarget 2147483648 = "2048Mi" :=
  (memory_target_formatting 2147483648 (by decide)).trans (by decide)

/-- Claim C10: past the existence check the collector dereferences the
VPA's recommendation unconditionally — a VPA whose status holds no
recommendation makes the run end in the nil-pointer panic rather than
being skipped or contributing zero rows, and with both pointer fields
non-nil the per-VPA collection never nil-panics. -/
theorem nil_recommendation_panics (cluster : Cluster) (hm : List CrossVersionObjectReference)
    (ns : String) (vpa : RecVPA) (targetRef : CrossVersionObjectReference)
    (h : vpa.targetRef = some targetRef)
    (hex : resourceExists cluster targetRef.name targetRef.kind = .ok true) :
    (vpa.recommendation = none → processVPA cluster hm ns vpa = .error .nilDeref) ∧
    (∀ recs, vpa.recommendation = some recs →
       processVPA cluster hm ns vpa ≠ .error .nilDeref) := by
  constructor
  · intro hnil
    simp only [processVPA, h, hex, hnil]
  · intro recs hrecs
    simp only [processVPA, h, hex, hrecs]
    exact buildRows_ne_nilDeref cluster hm ns vpa.name targetRef recs

theorem nil_recommendation_panics_witness :
    processVPA clusterShop [] "shop"
        { name := "api-vpa", targetRef := some ⟨"apps/v1", "Deployment", "api"⟩,
          recommendation := none } = .error .nilDeref :=
  (nil_recommendation_panics clusterShop [] "shop" _ ⟨"apps/v1", "Deployment", "api"⟩
      rfl (by rfl)).1 rfl

end VPARecommendations
